import Mathlib

/-!
Verification development for the sigmaengine 2D game engine
(src/engine.py). Python floats are modelled as rationals (every float
value is a rational number); the square root taken in the circle
collision test is modelled in the real numbers via coercion. Stateful
methods become pure functions from the old object to the new one.
-/

/-- Model of the Entity position state (src/engine.py, class Entity):
only the x and y fields are needed by the physics and collision claims. -/
structure Entity where
  x : ℚ
  y : ℚ
deriving DecidableEq, Repr

/-- Python int() conversion of a float: truncation toward zero. -/
def pyInt (q : ℚ) : ℤ :=
  if 0 ≤ q then ⌊q⌋ else ⌈q⌉

/-! ## PhysicsBody (src/engine.py lines 309-345) -/

/-- Model of class PhysicsBody. The position of the owned entity is
inlined (update mutates self.entity.x and self.entity.y). The
two-element Python lists velocity and acceleration become pairs whose
first and second components are index 0 and index 1. -/
structure PhysicsBody where
  entity : Entity
  velocity : ℚ × ℚ
  acceleration : ℚ × ℚ
  mass : ℚ
  gravity_scale : ℚ
  friction : ℚ
  restitution : ℚ
  is_static : Bool
deriving DecidableEq, Repr

/-- PhysicsBody.apply_force (src/engine.py lines 320-323): a no-op on
static bodies, otherwise adds force/mass to the acceleration. -/
def PhysicsBody.apply_force (b : PhysicsBody) (force_x force_y : ℚ) : PhysicsBody :=
  if b.is_static then b
  else { b with acceleration :=
          (b.acceleration.1 + force_x / b.mass, b.acceleration.2 + force_y / b.mass) }

/-- PhysicsBody.update (src/engine.py lines 325-345): early return for
static bodies; otherwise gravity (9.81 = 981/100) is added to the
vertical acceleration, acceleration is integrated into velocity,
friction multiplies both velocity components by (1 - friction),
velocity is integrated into the entity position, and the acceleration
is reset to zero. -/
def PhysicsBody.update (b : PhysicsBody) (delta_time : ℚ) : PhysicsBody :=
  if b.is_static then b
  else
    let acc : ℚ × ℚ := (b.acceleration.1, b.acceleration.2 + 981/100 * b.gravity_scale)
    let vel : ℚ × ℚ := (b.velocity.1 + acc.1 * delta_time, b.velocity.2 + acc.2 * delta_time)
    let vel2 : ℚ × ℚ := (vel.1 * (1 - b.friction), vel.2 * (1 - b.friction))
    { b with
      entity := ⟨b.entity.x + vel2.1 * delta_time, b.entity.y + vel2.2 * delta_time⟩,
      velocity := vel2,
      acceleration := (0, 0) }

/-! Step functions written from the words of the specification (section
4.4), used to state that PhysicsBody.update is exactly their
composition in the stated order. -/

/-- Spec step 1: add gravity (9.81 times gravity_scale) to the vertical
acceleration. -/
def spec_apply_gravity (b : PhysicsBody) : PhysicsBody :=
  { b with acceleration := (b.acceleration.1, b.acceleration.2 + 981/100 * b.gravity_scale) }

/-- Spec step 2: integrate acceleration into velocity, v += a * dt on
each component. -/
def spec_integrate_velocity (b : PhysicsBody) (dt : ℚ) : PhysicsBody :=
  { b with velocity :=
      (b.velocity.1 + b.acceleration.1 * dt, b.velocity.2 + b.acceleration.2 * dt) }

/-- Spec step 3: multiply both velocity components by (1 - friction),
unconditionally, independent of dt. -/
def spec_apply_friction (b : PhysicsBody) : PhysicsBody :=
  { b with velocity := (b.velocity.1 * (1 - b.friction), b.velocity.2 * (1 - b.friction)) }

/-- Spec step 4: integrate velocity into the entity position,
x += v * dt on each coordinate. -/
def spec_integrate_position (b : PhysicsBody) (dt : ℚ) : PhysicsBody :=
  { b with entity := ⟨b.entity.x + b.velocity.1 * dt, b.entity.y + b.velocity.2 * dt⟩ }

/-- Spec step 5: reset both acceleration components to zero. -/
def spec_reset_acceleration (b : PhysicsBody) : PhysicsBody :=
  { b with acceleration := (0, 0) }

/-! ## Animation (src/engine.py lines 243-305) -/

/-- Model of the mutable playback state of class Animation together
with the frame advance logic that AnimatedSprite.update (src/engine.py
lines 285-305) applies to its active animation. Frame geometry fields
(sprite sheet, frame rectangles) are irrelevant to the timing claims
and are omitted. The non-looping stop branch writes frame_count - 1;
for frame_count = 0 Python would write -1 (and then crash indexing the
empty frame list), while Nat subtraction gives 0 - the claims only
concern frame_count = 4, where the two agree. -/
structure Animation where
  frame_count : ℕ
  frame_duration : ℚ
  current_frame : ℕ
  time_accumulated : ℚ
  is_playing : Bool
  is_looping : Bool
deriving DecidableEq, Repr

/-- The frame advance performed by one AnimatedSprite.update call on
its active animation (src/engine.py lines 289-303): if not playing,
nothing happens; otherwise delta time is accumulated, and when the
accumulator reaches or exceeds frame_duration it is reset to zero and
the frame index is incremented by exactly one, wrapping to 0 (looping)
or stopping clamped at the last frame (non-looping) when it reaches
frame_count. -/
def Animation.update (anim : Animation) (delta_time : ℚ) : Animation :=
  if !anim.is_playing then anim
  else
    let acc := anim.time_accumulated + delta_time
    if acc ≥ anim.frame_duration then
      let cf := anim.current_frame + 1
      if cf ≥ anim.frame_count then
        if anim.is_looping then
          { anim with time_accumulated := 0, current_frame := 0 }
        else
          { anim with time_accumulated := 0, current_frame := anim.frame_count - 1,
                      is_playing := false }
      else
        { anim with time_accumulated := 0, current_frame := cf }
    else
      { anim with time_accumulated := acc }

/-- The animation of claim C3 right after play_animation: frame_count 4,
frame_duration 0.1, frame 0, accumulator 0, playing and looping. -/
def animC3 : Animation :=
  { frame_count := 4, frame_duration := 1/10, current_frame := 0,
    time_accumulated := 0, is_playing := true, is_looping := true }

/-- The sequence of frame indices observed after each update in a run
over the given delta times, in order. -/
def Animation.frameTrace (anim : Animation) (dts : List ℚ) : List ℕ :=
  ((dts.scanl Animation.update anim).tail).map Animation.current_frame

/-! ## Collision shapes (src/engine.py lines 347-397) -/

/-- Model of pygame.Rect: four integer fields. pygame truncates float
arguments toward zero when constructing a Rect, modelled by pyInt. -/
structure PyRect where
  x : ℤ
  y : ℤ
  w : ℤ
  h : ℤ
deriving DecidableEq, Repr

/-- Model of pygame.Rect.colliderect: strict overlap test on both axes
(rectangles that merely touch do not collide). -/
def PyRect.colliderect (a b : PyRect) : Bool :=
  decide (a.x < b.x + b.w) && decide (a.y < b.y + b.h) &&
  decide (b.x < a.x + a.w) && decide (b.y < a.y + a.h)

/-- The CollisionShape hierarchy (src/engine.py lines 347-397) as a
closed sum: BoxCollider carries width and height, CircleCollider
carries a radius; both carry the bound entity and the local offset
fields offset_x and offset_y inherited from CollisionShape. -/
inductive CollisionShape where
  | box (entity : Entity) (offset_x offset_y : ℚ) (width height : ℚ)
  | circle (entity : Entity) (offset_x offset_y : ℚ) (radius : ℚ)
deriving DecidableEq, Repr

/-- get_bounds (src/engine.py lines 365-371 and 383-389): the
axis-aligned bounding rectangle, built as a pygame.Rect (float
arguments truncated toward zero). -/
def CollisionShape.get_bounds : CollisionShape → PyRect
  | .box e ox oy w h =>
      ⟨pyInt (e.x + ox - w/2), pyInt (e.y + oy - h/2), pyInt w, pyInt h⟩
  | .circle e ox oy r =>
      ⟨pyInt (e.x + ox - r), pyInt (e.y + oy - r), pyInt (r * 2), pyInt (r * 2)⟩

/-- collides_with (src/engine.py lines 373-376 and 391-397): box vs box
is bounding-rectangle intersection; circle vs circle compares the
square root of dx*dx + dy*dy (entity positions only, offsets unused)
strictly against the sum of the radii; every cross-variant pair falls
through the isinstance check and returns False. The square root of the
Python float computation is modelled by the real square root of the
rational operand. -/
def CollisionShape.collides_with : CollisionShape → CollisionShape → Prop
  | .box e1 ox1 oy1 w1 h1, .box e2 ox2 oy2 w2 h2 =>
      PyRect.colliderect (CollisionShape.get_bounds (.box e1 ox1 oy1 w1 h1))
        (CollisionShape.get_bounds (.box e2 ox2 oy2 w2 h2)) = true
  | .circle e1 _ _ r1, .circle e2 _ _ r2 =>
      Real.sqrt (((e1.x - e2.x) * (e1.x - e2.x) + (e1.y - e2.y) * (e1.y - e2.y) : ℚ) : ℝ)
        < ((r1 : ℝ) + (r2 : ℝ))
  | .box _ _ _ _ _, .circle _ _ _ _ => False
  | .circle _ _ _ _, .box _ _ _ _ _ => False

/-- Euclidean distance between the centers of two entities, written
from the words of claim C4 to compare against the source computation. -/
noncomputable def euclidDist (p q : Entity) : ℝ :=
  Real.sqrt (((p.x : ℝ) - (q.x : ℝ))^2 + ((p.y : ℝ) - (q.y : ℝ))^2)

/-! ## Sprite rendering destination (src/engine.py lines 196-239) -/

/-- The slice of Sprite state deciding the blit destination: position,
visibility, and whether a texture is resolved (self.texture is not
None). Surface transforms (crop, scale, rotate, flip, tint, alpha) are
opaque pygame operations that do not affect the destination center. -/
structure Sprite where
  x : ℚ
  y : ℚ
  visible : Bool
  has_texture : Bool
deriving DecidableEq, Repr

/-- The device-pixel center at which Sprite.render blits (src/engine.py
lines 214-239): none when invisible or textureless (early return),
otherwise dest_rect.center = (int(self.x), int(self.y)), where Python
int() truncates toward zero. -/
def Sprite.renderCenter (s : Sprite) : Option (ℤ × ℤ) :=
  if !s.visible || !s.has_texture then none
  else some (pyInt s.x, pyInt s.y)

/-! ## Scene traversal (src/engine.py lines 137-160)

Scene.update and Scene.render are the same loop shape:
for entity in self.entities: entity.update(dt) (respectively
entity.render(screen)). A Python for statement over a list walks it by
an internal index against the LIVE list, so a callback that mutates
self.entities changes what the loop sees. Entities are modelled by
identifiers (ℕ); the overridden per-entity callback is a parameter
act : ℕ → List ℕ → List ℕ giving the entity list after the callback of
a given entity runs. The traversal returns the final entity list
together with the log of entities whose callback was invoked, in
invocation order; since an act that keeps appending makes the Python
loop run forever, the model carries fuel and returns none when the fuel
is exhausted before the loop exits. -/

/-- The Python list iterator: visit index i of the live list es; if i
is in range, run the callback of es[i] (which may replace the list) and
continue at i+1, else stop. One unit of fuel per loop iteration. -/
def pyForGo (act : ℕ → List ℕ → List ℕ) : ℕ → ℕ → List ℕ → Option (List ℕ × List ℕ)
  | 0, i, es => if i < es.length then none else some (es, [])
  | fuel+1, i, es =>
    if h : i < es.length then
      (pyForGo act fuel (i+1) (act es[i] es)).map (fun r => (r.1, es[i] :: r.2))
    else some (es, [])

/-- Scene.update (src/engine.py lines 154-156) and Scene.render (lines
158-160): iterate the live entity list from index 0, invoking each
visited callback of the entity once. -/
def Scene.update (act : ℕ → List ℕ → List ℕ) (entities : List ℕ) (fuel : ℕ) :
    Option (List ℕ × List ℕ) :=
  pyForGo act fuel 0 entities

/-- Scene.remove_entity (src/engine.py lines 146-148): remove the first
occurrence of the entity if present, else do nothing. -/
def Scene.remove_entity (entity : ℕ) (entities : List ℕ) : List ℕ :=
  if entity ∈ entities then entities.erase entity else entities

/-- A concrete family of callbacks for the counterexample to C1: the
callback of entity 0 removes entity 0 from the scene (self-removal via
Scene.remove_entity); every other callback leaves the list unchanged. -/
def removeSelfAct : ℕ → List ℕ → List ℕ :=
  fun e es => if e = 0 then Scene.remove_entity 0 es else es

/-! ## UI: Button event handling (src/engine.py lines 401-462) -/

/-- The pygame events Button.handle_event discriminates on, with the
raw mouse button number (left button is 1). -/
inductive UIEvent where
  | mouseButtonDown (button : ℕ)
  | mouseButtonUp (button : ℕ)
  | other
deriving DecidableEq, Repr

/-- The Button state the event handler reads and writes (src/engine.py
lines 401-447): local position and size from UIElement, the local
positions of the ancestors up the parent chain (listed from parent to
root, used by get_absolute_position), the enabled flag, the hover and
pressed flags, and whether an on_click callback is set (self.on_click
is not None). -/
structure Button where
  x : ℚ
  y : ℚ
  width : ℚ
  height : ℚ
  ancestor_offsets : List (ℚ × ℚ)
  enabled : Bool
  is_hovered : Bool
  is_pressed : Bool
  has_on_click : Bool
deriving DecidableEq, Repr

/-- UIElement.get_absolute_position (src/engine.py lines 422-429): the
local position plus the sum of the local positions up the parent
chain. -/
def Button.get_absolute_position (b : Button) : ℚ × ℚ :=
  (b.x + (b.ancestor_offsets.map Prod.fst).sum,
   b.y + (b.ancestor_offsets.map Prod.snd).sum)

/-- UIElement.contains_point (src/engine.py lines 431-434): inclusive
bounding-box test around the absolute position. -/
def Button.contains_point (b : Button) (point : ℚ × ℚ) : Bool :=
  let a := b.get_absolute_position
  decide (a.1 - b.width/2 ≤ point.1) && decide (point.1 ≤ a.1 + b.width/2) &&
  decide (a.2 - b.height/2 ≤ point.2) && decide (point.2 ≤ a.2 + b.height/2)

/-- Button.handle_event (src/engine.py lines 449-462): disabled buttons
ignore everything; otherwise is_hovered is recomputed from the live
mouse position (passed here as mouse_pos, the result of
pygame.mouse.get_pos()) on EVERY event; a left-button-down while
hovered arms is_pressed; a left-button-up fires on_click exactly when
pressed, hovered and a callback is set, then always clears is_pressed.
Returns the new state and whether on_click fired. -/
def Button.handle_event (b : Button) (mouse_pos : ℚ × ℚ) (event : UIEvent) :
    Button × Bool :=
  if !b.enabled then (b, false)
  else
    let hovered := b.contains_point mouse_pos
    let b1 := { b with is_hovered := hovered }
    match event with
    | .mouseButtonDown 1 =>
        if hovered then ({ b1 with is_pressed := true }, false) else (b1, false)
    | .mouseButtonUp 1 =>
        let fired := b1.is_pressed && hovered && b1.has_on_click
        ({ b1 with is_pressed := false }, fired)
    | _ => (b1, false)

/-! ## UI layout (src/engine.py lines 537-557) -/

/-- The child state VerticalLayout reads and writes: local position and
size of a UIElement in the children list of the panel. -/
structure UIChild where
  x : ℚ
  y : ℚ
  width : ℚ
  height : ℚ
deriving DecidableEq, Repr

/-- The per-child placement loop of VerticalLayout.update: each child
gets x = 0 and is centered on the running cursor plus half its own
height; the cursor advances by the height of the child plus the
spacing. -/
def VerticalLayout.go (spacing : ℚ) : ℚ → List UIChild → List UIChild
  | _, [] => []
  | current_y, c :: rest =>
      { c with x := 0, y := current_y + c.height/2 } ::
        VerticalLayout.go spacing (current_y + c.height + spacing) rest

/-- VerticalLayout.update (src/engine.py lines 545-557): no-op on an
empty children list; otherwise starts the cursor at minus half the
total child height minus half the total spacing and places each child
in list order. -/
def VerticalLayout.update (spacing : ℚ) (children : List UIChild) : List UIChild :=
  if children.isEmpty then children
  else
    let total_height := (children.map UIChild.height).sum
    let total_spacing := spacing * ((children.length : ℚ) - 1)
    VerticalLayout.go spacing (-(total_height/2) - total_spacing/2) children

/-! ## Theorems -/

/-- A traversal whose callbacks never mutate the entity list visits,
starting from index i with exactly enough fuel, the suffix of the list
from i on, in order, and leaves the list unchanged. -/
theorem pyForGo_no_mutation (act : ℕ → List ℕ → List ℕ) (h : ∀ e l, act e l = l) :
    ∀ (n i : ℕ) (es : List ℕ), es.length = i + n →
      pyForGo act n i es = some (es, es.drop i) := by
  intro n
  induction n with
  | zero =>
      intro i es hlen
      have hi : ¬ i < es.length := by omega
      simp only [pyForGo, if_neg hi]
      rw [List.drop_of_length_le (by omega)]
  | succ n ih =>
      intro i es hlen
      have hi : i < es.length := by omega
      simp only [pyForGo, dif_pos hi]
      rw [h es[i] es, ih (i+1) es (by omega), Option.map_some']
      rw [List.getElem_cons_drop es i hi]

/-- C1: the claim fails on the code. Scene.update iterates the LIVE
entity list by index, so when the callback of entity 0 removes entity 0
from a scene holding [0, 1], the loop next looks at index 1 of the
one-element remainder and stops: the visit log is [0], and the callback
of entity 1, still a member of the scene, is never invoked. -/
theorem scene_update_mutation_counterexample :
    Scene.update removeSelfAct [0, 1] 2 = some ([1], [0]) ∧ 1 ∉ ([0] : List ℕ) := by
  decide

/-- C1 (amended): a single Scene.update (and likewise Scene.render,
the identical loop) invokes the callback of all N entities exactly once
each, in list order, PROVIDED no callback mutates the entity list; the
visit log equals the entity list itself and the list is unchanged. -/
theorem scene_update_visits_each_entity_once (act : ℕ → List ℕ → List ℕ)
    (h : ∀ e l, act e l = l) (entities : List ℕ) :
    Scene.update act entities entities.length = some (entities, entities) := by
  have hrun := pyForGo_no_mutation act h entities.length 0 entities (by omega)
  simpa [Scene.update] using hrun

/-- Witness for the amended C1 at a concrete scene of three entities
with callbacks that do not mutate the list. -/
theorem scene_update_visits_each_entity_once_witness :
    Scene.update (fun _ l => l) [5, 6, 7] 3 = some ([5, 6, 7], [5, 6, 7]) :=
  scene_update_visits_each_entity_once (fun _ l => l) (fun _ _ => rfl) [5, 6, 7]

/-- C2: one PhysicsBody.update call on a non-static body is exactly the
composition, in order, of: add gravity to vertical acceleration,
integrate acceleration into velocity, damp both velocity components by
(1 - friction) independently of dt, integrate the damped velocity into
the entity position, and reset both acceleration components to zero. -/
theorem physicsbody_update_integration_order (b : PhysicsBody) (dt : ℚ)
    (h : b.is_static = false) :
    b.update dt =
      spec_reset_acceleration
        (spec_integrate_position
          (spec_apply_friction
            (spec_integrate_velocity (spec_apply_gravity b) dt)) dt) := by
  simp [PhysicsBody.update, spec_apply_gravity, spec_integrate_velocity,
        spec_apply_friction, spec_integrate_position, spec_reset_acceleration, h]

/-- Witness for C2 at a concrete non-static body and dt = 1/2. -/
theorem physicsbody_update_integration_order_witness :
    (⟨⟨0, 0⟩, (1, 2), (3, 4), 2, 1, 1/10, 1/2, false⟩ : PhysicsBody).is_static = false ∧
    (⟨⟨0, 0⟩, (1, 2), (3, 4), 2, 1, 1/10, 1/2, false⟩ : PhysicsBody).update (1/2) =
      spec_reset_acceleration
        (spec_integrate_position
          (spec_apply_friction
            (spec_integrate_velocity
              (spec_apply_gravity ⟨⟨0, 0⟩, (1, 2), (3, 4), 2, 1, 1/10, 1/2, false⟩)
              (1/2))) (1/2)) :=
  ⟨rfl, physicsbody_update_integration_order _ _ rfl⟩

/-- A static body is returned unchanged by PhysicsBody.update. -/
theorem physicsbody_update_static (b : PhysicsBody) (h : b.is_static = true)
    (dt : ℚ) : b.update dt = b := by
  simp [PhysicsBody.update, h]

/-- C8: a static PhysicsBody keeps its velocity and its entity position
across any finite sequence of update calls with arbitrary delta times,
and apply_force never alters its acceleration. -/
theorem physicsbody_static_inert (b : PhysicsBody) (h : b.is_static = true) :
    (∀ dts : List ℚ,
        (dts.foldl PhysicsBody.update b).velocity = b.velocity ∧
        (dts.foldl PhysicsBody.update b).entity.x = b.entity.x ∧
        (dts.foldl PhysicsBody.update b).entity.y = b.entity.y) ∧
    ∀ force_x force_y : ℚ,
      (b.apply_force force_x force_y).acceleration = b.acceleration := by
  have key : ∀ dts : List ℚ, dts.foldl PhysicsBody.update b = b := by
    intro dts
    induction dts with
    | nil => rfl
    | cons d ds ih =>
        rw [List.foldl_cons, physicsbody_update_static b h d]
        exact ih
  refine ⟨fun dts => by rw [key dts]; exact ⟨rfl, rfl, rfl⟩, fun fx fy => ?_⟩
  simp [PhysicsBody.apply_force, h]

/-- Witness for C8 at a concrete static body, two update calls and one
apply_force call. -/
theorem physicsbody_static_inert_witness :
    (⟨⟨1, 2⟩, (3, 4), (5, 6), 1, 1, 1/10, 1/2, true⟩ : PhysicsBody).is_static = true ∧
    (([1, 2] : List ℚ).foldl PhysicsBody.update
        ⟨⟨1, 2⟩, (3, 4), (5, 6), 1, 1, 1/10, 1/2, true⟩).velocity = (3, 4) ∧
    ((⟨⟨1, 2⟩, (3, 4), (5, 6), 1, 1, 1/10, 1/2, true⟩ : PhysicsBody).apply_force 3 4).acceleration
      = (5, 6) :=
  ⟨rfl,
   ((physicsbody_static_inert ⟨⟨1, 2⟩, (3, 4), (5, 6), 1, 1, 1/10, 1/2, true⟩ rfl).1 [1, 2]).1,
   (physicsbody_static_inert ⟨⟨1, 2⟩, (3, 4), (5, 6), 1, 1, 1/10, 1/2, true⟩ rfl).2 3 4⟩

/-- C3: for the active playing looping animation with frame_duration
1/10 and frame_count 4, each update adds dt to the accumulator; when
the accumulator reaches or exceeds the frame duration it is reset to
exactly zero and the frame index advances by exactly one modulo 4,
whatever the overshoot; otherwise the frame index is unchanged; and the
five delta times [0.1, 0.1, 0.1, 0.1, 0.1] from frame 0 drive the frame
index through 1, 2, 3, 0, 1. -/
theorem animation_frame_advance (a : Animation) (dt : ℚ)
    (hp : a.is_playing = true) (hl : a.is_looping = true)
    (hd : a.frame_duration = 1/10) (hc : a.frame_count = 4)
    (hcf : a.current_frame < 4) :
    ((1/10 : ℚ) ≤ a.time_accumulated + dt →
        (a.update dt).time_accumulated = 0 ∧
        (a.update dt).current_frame = (a.current_frame + 1) % 4) ∧
    (a.time_accumulated + dt < 1/10 →
        (a.update dt).time_accumulated = a.time_accumulated + dt ∧
        (a.update dt).current_frame = a.current_frame) ∧
    animC3.frameTrace [1/10, 1/10, 1/10, 1/10, 1/10] = [1, 2, 3, 0, 1] := by
  refine ⟨?_, ?_, ?_⟩
  · intro hge
    have hacc : a.frame_duration ≤ a.time_accumulated + dt := by rw [hd]; exact hge
    by_cases h4 : a.current_frame + 1 ≥ a.frame_count
    · have h3 : a.current_frame = 3 := by omega
      simp [Animation.update, hp, hl, if_pos hacc, h4, h3, hc]
    · simp only [Animation.update, hp, Bool.not_true, Bool.false_eq_true, if_false,
                 ge_iff_le, if_pos hacc, if_neg h4]
      have hlt4 : a.current_frame + 1 < 4 := by omega
      exact ⟨trivial, by omega⟩
  · intro hlt
    have hacc : ¬ a.frame_duration ≤ a.time_accumulated + dt := by rw [hd]; exact not_le.mpr hlt
    simp [Animation.update, hp, if_neg hacc]
  · norm_num [Animation.frameTrace, Animation.update, animC3, List.scanl]

/-- Witness for C3: the freshly played claim animation, fed one delta
time of exactly 1/10, resets its accumulator to zero and advances from
frame 0 to frame 1 = (0 + 1) % 4. -/
theorem animation_frame_advance_witness :
    (animC3.update (1/10)).time_accumulated = 0 ∧
    (animC3.update (1/10)).current_frame = (animC3.current_frame + 1) % 4 :=
  (animation_frame_advance animC3 (1/10) rfl rfl rfl rfl (by decide)).1
    (by simp [animC3])

/-- C4: circle vs circle collision is a strict comparison of the
Euclidean distance between the two entity centers against the sum of
the radii; two radius-5 circles whose centers are exactly 10 apart do
not collide, while centers 9.99 apart do collide. -/
theorem circlecollider_strict_distance :
    (∀ (e1 : Entity) (o1x o1y r1 : ℚ) (e2 : Entity) (o2x o2y r2 : ℚ),
        CollisionShape.collides_with (.circle e1 o1x o1y r1) (.circle e2 o2x o2y r2) ↔
          euclidDist e1 e2 < (r1 : ℝ) + (r2 : ℝ)) ∧
    ¬ CollisionShape.collides_with (.circle ⟨0, 0⟩ 0 0 5) (.circle ⟨10, 0⟩ 0 0 5) ∧
    CollisionShape.collides_with (.circle ⟨0, 0⟩ 0 0 5) (.circle ⟨999/100, 0⟩ 0 0 5) := by
  have hiff : ∀ (e1 : Entity) (o1x o1y r1 : ℚ) (e2 : Entity) (o2x o2y r2 : ℚ),
      CollisionShape.collides_with (.circle e1 o1x o1y r1) (.circle e2 o2x o2y r2) ↔
        euclidDist e1 e2 < (r1 : ℝ) + (r2 : ℝ) := by
    intro e1 o1x o1y r1 e2 o2x o2y r2
    simp only [CollisionShape.collides_with, euclidDist]
    have harg : (((e1.x - e2.x) * (e1.x - e2.x) + (e1.y - e2.y) * (e1.y - e2.y) : ℚ) : ℝ)
        = ((e1.x : ℝ) - (e2.x : ℝ))^2 + ((e1.y : ℝ) - (e2.y : ℝ))^2 := by
      push_cast
      ring
    rw [harg]
  refine ⟨hiff, ?_, ?_⟩
  · rw [hiff, not_lt]
    simp only [euclidDist]
    rw [Real.le_sqrt' (by norm_num)]
    norm_num
  · rw [hiff]
    simp only [euclidDist]
    rw [Real.sqrt_lt' (by norm_num)]
    norm_num

/-- C5: colliding a BoxCollider with a CircleCollider, in either call
direction, always reports no collision (never an error), whatever the
positions and sizes. -/
theorem cross_variant_no_collision :
    ∀ (e1 : Entity) (o1x o1y w h : ℚ) (e2 : Entity) (o2x o2y r : ℚ),
      ¬ CollisionShape.collides_with (.box e1 o1x o1y w h) (.circle e2 o2x o2y r) ∧
      ¬ CollisionShape.collides_with (.circle e2 o2x o2y r) (.box e1 o1x o1y w h) := by
  intro e1 o1x o1y w h e2 o2x o2y r
  exact ⟨fun hf => hf, fun hf => hf⟩

/-- C10: the circle vs circle collision result depends only on the two
entity positions and the two radii - it is invariant under any change
of either collider's offset_x or offset_y - although get_bounds of a
circle collider does depend on those offsets (bounds differ for
offset_x 1 versus 0). -/
theorem circle_collision_ignores_offsets :
    (∀ (e1 : Entity) (r1 : ℚ) (e2 : Entity) (r2 : ℚ) (a1 b1 a2 b2 c1 d1 c2 d2 : ℚ),
        CollisionShape.collides_with (.circle e1 a1 b1 r1) (.circle e2 a2 b2 r2) ↔
          CollisionShape.collides_with (.circle e1 c1 d1 r1) (.circle e2 c2 d2 r2)) ∧
    (∀ (e : Entity) (ox oy r : ℚ),
        CollisionShape.get_bounds (.circle e ox oy r) =
          ⟨pyInt (e.x + ox - r), pyInt (e.y + oy - r), pyInt (r * 2), pyInt (r * 2)⟩) ∧
    CollisionShape.get_bounds (.circle ⟨10, 0⟩ 1 0 5) ≠
      CollisionShape.get_bounds (.circle ⟨10, 0⟩ 0 0 5) := by
  refine ⟨fun _ _ _ _ _ _ _ _ _ _ _ _ => Iff.rfl, fun _ _ _ _ => rfl, ?_⟩
  simp only [CollisionShape.get_bounds, ne_eq, PyRect.mk.injEq, not_and]
  intro hx
  exfalso
  norm_num [pyInt] at hx

/-- Changing only the Boolean flags of a Button does not change its
hit test, which reads only position, size and the ancestor chain. -/
theorem button_contains_point_flags (b : Button) (en hov pr clk : Bool) (p : ℚ × ℚ) :
    Button.contains_point
      { b with enabled := en, is_hovered := hov, is_pressed := pr, has_on_click := clk } p =
      b.contains_point p := rfl

/-- C6: for an enabled Button, a left-button-down while the live mouse
position is inside the bounds followed by a left-button-up while the
live mouse position is outside the bounds does not fire on_click and
leaves is_pressed false; in general a left-button-up always clears
is_pressed, and fires on_click only if the button was pressed and the
live mouse position is inside the bounds. -/
theorem button_click_requires_press_and_hover :
    (∀ (b : Button) (p_in p_out : ℚ × ℚ),
        b.enabled = true →
        b.contains_point p_in = true →
        b.contains_point p_out = false →
        (Button.handle_event (b.handle_event p_in (.mouseButtonDown 1)).1
            p_out (.mouseButtonUp 1)).2 = false ∧
        ((Button.handle_event (b.handle_event p_in (.mouseButtonDown 1)).1
            p_out (.mouseButtonUp 1)).1).is_pressed = false) ∧
    (∀ (b : Button) (q : ℚ × ℚ),
        b.enabled = true →
        ((b.handle_event q (.mouseButtonUp 1)).1.is_pressed = false ∧
         ((b.handle_event q (.mouseButtonUp 1)).2 = true →
            b.is_pressed = true ∧ b.contains_point q = true))) := by
  constructor
  · intro b p_in p_out hen hin hout
    have hdown : (b.handle_event p_in (.mouseButtonDown 1)).1
        = { b with is_hovered := true, is_pressed := true } := by
      simp [Button.handle_event, hen, hin]
    rw [hdown]
    simp [Button.handle_event, hen, button_contains_point_flags, hout]
  · intro b q hen
    simp only [Button.handle_event, hen, Bool.not_true, Bool.false_eq_true, if_false]
    refine ⟨trivial, fun hfired => ?_⟩
    simp only [Bool.and_eq_true] at hfired
    exact ⟨hfired.1.1, hfired.1.2⟩

/-- Witness for C6: a concrete enabled 100 by 50 button at the origin
with a callback set, pressed at the origin and released at
(1000, 1000), does not fire and ends unpressed; and a bare
left-button-up on it clears is_pressed. -/
theorem button_click_requires_press_and_hover_witness :
    ((Button.handle_event
        (Button.handle_event ⟨0, 0, 100, 50, [], true, false, false, true⟩
          (0, 0) (.mouseButtonDown 1)).1
        (1000, 1000) (.mouseButtonUp 1)).2 = false ∧
     ((Button.handle_event
        (Button.handle_event ⟨0, 0, 100, 50, [], true, false, false, true⟩
          (0, 0) (.mouseButtonDown 1)).1
        (1000, 1000) (.mouseButtonUp 1)).1).is_pressed = false) ∧
    ((Button.handle_event ⟨0, 0, 100, 50, [], true, false, false, true⟩
        (3, 3) (.mouseButtonUp 1)).1.is_pressed = false) :=
  ⟨button_click_requires_press_and_hover.1 ⟨0, 0, 100, 50, [], true, false, false, true⟩
      (0, 0) (1000, 1000) rfl
      (by norm_num [Button.contains_point, Button.get_absolute_position])
      (by norm_num [Button.contains_point, Button.get_absolute_position]),
   (button_click_requires_press_and_hover.2 ⟨0, 0, 100, 50, [], true, false, false, true⟩
      (3, 3) rfl).1⟩

/-- C7: a VerticalLayout with spacing 5 over exactly two children of
heights 20 and 30 assigns local x = 0 to both, leaves a vertical gap of
exactly 5 between the bottom edge of the first child and the top edge
of the second, and centers the whole stack on the local origin of the
panel (the top of the first child is minus the bottom of the second);
the resulting positions are y = -35/2 and y = 25/2. -/
theorem verticallayout_two_children_centered (x1 y1 w1 x2 y2 w2 : ℚ) :
    VerticalLayout.update 5 [⟨x1, y1, w1, 20⟩, ⟨x2, y2, w2, 30⟩]
      = [⟨0, -35/2, w1, 20⟩, ⟨0, 25/2, w2, 30⟩] ∧
    ∀ c1 c2 : UIChild,
      VerticalLayout.update 5 [⟨x1, y1, w1, 20⟩, ⟨x2, y2, w2, 30⟩] = [c1, c2] →
      c1.x = 0 ∧ c2.x = 0 ∧
      (c2.y - c2.height/2) - (c1.y + c1.height/2) = 5 ∧
      c1.y - c1.height/2 = -(c2.y + c2.height/2) := by
  have hout : VerticalLayout.update 5 [⟨x1, y1, w1, 20⟩, ⟨x2, y2, w2, 30⟩]
      = [⟨0, -35/2, w1, 20⟩, ⟨0, 25/2, w2, 30⟩] := by
    norm_num [VerticalLayout.update, VerticalLayout.go]
  refine ⟨hout, fun c1 c2 heq => ?_⟩
  rw [hout] at heq
  simp only [List.cons.injEq, and_true] at heq
  obtain ⟨h1, h2⟩ := heq
  subst h1
  subst h2
  norm_num

/-- Witness for C7: the general consequence instantiated at concrete
initial child states, via the computed output of the layout. -/
theorem verticallayout_two_children_centered_witness :
    (⟨0, -35/2, 3, 20⟩ : UIChild).x = 0 ∧ (⟨0, 25/2, 7, 30⟩ : UIChild).x = 0 ∧
    ((⟨0, 25/2, 7, 30⟩ : UIChild).y - (⟨0, 25/2, 7, 30⟩ : UIChild).height/2) -
      ((⟨0, -35/2, 3, 20⟩ : UIChild).y + (⟨0, -35/2, 3, 20⟩ : UIChild).height/2) = 5 ∧
    (⟨0, -35/2, 3, 20⟩ : UIChild).y - (⟨0, -35/2, 3, 20⟩ : UIChild).height/2 =
      -((⟨0, 25/2, 7, 30⟩ : UIChild).y + (⟨0, 25/2, 7, 30⟩ : UIChild).height/2) :=
  (verticallayout_two_children_centered 1 2 3 4 5 7).2
    ⟨0, -35/2, 3, 20⟩ ⟨0, 25/2, 7, 30⟩
    (verticallayout_two_children_centered 1 2 3 4 5 7).1

/-- The device pixel Python int() picks for 3.7: truncation gives 3. -/
theorem pyInt_thirtyseven_tenths : pyInt ((37 : ℚ)/10) = 3 := by
  have h37 : ⌊(37 : ℚ)/10⌋ = 3 := by
    rw [Int.floor_eq_iff]
    constructor <;> norm_num
  norm_num [pyInt, h37]

/-- C9 counterexample: the claim says the blit is centered at the
NEAREST integer pixel; for a visible textured sprite at x = 3.7 the
nearest integer is 4, but Sprite.render centers at int(3.7) = 3
(Python int() truncates toward zero, it does not round). -/
theorem sprite_render_center_not_nearest :
    Sprite.renderCenter ⟨37/10, 0, true, true⟩ = some (3, 0) ∧
    round ((37 : ℚ)/10) = 4 ∧
    Sprite.renderCenter ⟨37/10, 0, true, true⟩ ≠
      some (round ((37 : ℚ)/10), round ((0 : ℚ))) := by
  have hround : round ((37 : ℚ)/10) = 4 := by
    rw [round_eq]
    have : (37 : ℚ)/10 + 1/2 = 21/5 := by norm_num
    rw [this, Int.floor_eq_iff]
    constructor <;> norm_num
  have hz : pyInt 0 = 0 := by norm_num [pyInt]
  refine ⟨?_, hround, ?_⟩
  · simp [Sprite.renderCenter, pyInt_thirtyseven_tenths, hz]
  · simp [Sprite.renderCenter, pyInt_thirtyseven_tenths, hz, hround]

/-- C9 (amended): for every visible Sprite with a resolved texture,
Sprite.render blits the transformed image centered at the point
obtained by truncating x and y each toward zero (Python int()), which
is the floor for nonnegative coordinates and the ceiling for negative
ones - not rounding to the nearest integer. -/
theorem sprite_render_center_truncates (s : Sprite)
    (hv : s.visible = true) (ht : s.has_texture = true) :
    s.renderCenter = some (pyInt s.x, pyInt s.y) ∧
    (0 ≤ s.x → pyInt s.x = ⌊s.x⌋) ∧ (s.x < 0 → pyInt s.x = ⌈s.x⌉) := by
  refine ⟨by simp [Sprite.renderCenter, hv, ht], fun h0 => ?_, fun hneg => ?_⟩
  · simp [pyInt, h0]
  · simp [pyInt, not_le.mpr hneg]

/-- Witness for the amended C9 at a concrete visible textured sprite. -/
theorem sprite_render_center_truncates_witness :
    Sprite.renderCenter ⟨37/10, 0, true, true⟩ = some (pyInt (37/10), pyInt 0) ∧
    ((0 : ℚ) ≤ 37/10 → pyInt ((37 : ℚ)/10) = ⌊(37 : ℚ)/10⌋) :=
  ⟨(sprite_render_center_truncates ⟨37/10, 0, true, true⟩ rfl rfl).1,
   (sprite_render_center_truncates ⟨37/10, 0, true, true⟩ rfl rfl).2.1⟩
